import Mathlib

/-!
Shallow embedding of the PLC simulator core (directory src/plc-simulator):
`core/tag.py` (AccessType, DataType, Tag), `core/data_block.py` (DataBlock)
and `core/plc.py` (PLCSimulator).

Modelling conventions:
* Python numbers are modelled exactly: `int` as `ℤ`, `float` as `ℚ`
  (no floating-point rounding is relevant to the claims settled here).
* Random samples are explicit parameters: `random.gauss(0, sigma)` is
  modelled as `sigma * z` where `z` is the standard normal sample passed in,
  and `random.uniform(-r, r)` is modelled as a sample `s` that theorems
  constrain by `|s| ≤ r`.
* Exceptions are modelled with `Except`/`Option`: a raised
  `ValueError` during configuration becomes a `ConfigError` value
  (the spec's name for that failure), and a failed value coercion in the
  `value` setter becomes `none`.
* Wall-clock attributes (`timestamp`) and protocol handles
  (`opcua_node`, `opcua_variant_type`) have no bearing on any claim and
  are omitted from the state.
-/

namespace PLCSim

/-- `AccessType` enum of core/tag.py. -/
inductive AccessType
  | READ_ONLY
  | READ_WRITE
deriving DecidableEq, Repr

/-- `AccessType(value)` enum construction: succeeds on the enum values
"RO" / "RW", raises (here: `none`) otherwise. -/
def AccessType.ofString : String → Option AccessType
  | "RO" => some .READ_ONLY
  | "RW" => some .READ_WRITE
  | _ => none

/-- `DataType` enum of core/tag.py. -/
inductive DataType
  | BOOL
  | INT
  | FLOAT
  | BYTE
  | STRING
deriving DecidableEq, Repr

/-- `DataType(value)` enum construction from the config string. -/
def DataType.ofString : String → Option DataType
  | "bool" => some .BOOL
  | "int" => some .INT
  | "float" => some .FLOAT
  | "byte" => some .BYTE
  | "string" => some .STRING
  | _ => none

/-- A Python value as stored in `Tag._value` or appearing in a config. -/
inductive PyValue
  | pyBool (b : Bool)
  | pyInt (n : ℤ)
  | pyFloat (q : ℚ)
  | pyStr (s : String)
deriving DecidableEq, Repr

/-- Python `bool(value)` truthiness. -/
def PyValue.truthy : PyValue → Bool
  | .pyBool b => b
  | .pyInt n => n != 0
  | .pyFloat q => q != 0
  | .pyStr s => s != ""

/-- Python `int(x)` truncation of a real value toward zero. -/
def truncQ (x : ℚ) : ℤ := if 0 ≤ x then ⌊x⌋ else ⌈x⌉

/-- Python `int(value)`: booleans map to 0/1, floats truncate toward zero,
strings parse as a (signed) decimal integer or raise (`none`). -/
def PyValue.toPyInt : PyValue → Option ℤ
  | .pyBool b => some (if b then 1 else 0)
  | .pyInt n => some n
  | .pyFloat q => some (truncQ q)
  | .pyStr s => s.toInt?

/-- Python `float(value)`. Numeric parsing of strings is not modelled
(`none`); no configuration appearing in the claims uses a numeric string. -/
def PyValue.toFloatQ : PyValue → Option ℚ
  | .pyBool b => some (if b then 1 else 0)
  | .pyInt n => some (n : ℚ)
  | .pyFloat q => some q
  | .pyStr _ => none

/-- Python `str(value)`; the rendering of numbers is display-only and no
claim depends on the exact text. -/
def PyValue.toPyStr : PyValue → String
  | .pyBool b => if b then "True" else "False"
  | .pyInt n => toString n
  | .pyFloat q => toString q
  | .pyStr s => s

/-- The numeric reading of a stored value, as used by the arithmetic in
`Tag.value` (getter) and `Tag.update_simulation`.  Those code paths run
only for INT/FLOAT tags, whose stored value is always `pyInt`/`pyFloat`,
so the `pyStr` fallback value is never reached on states of the program. -/
def PyValue.toRat : PyValue → ℚ
  | .pyBool b => if b then 1 else 0
  | .pyInt n => (n : ℚ)
  | .pyFloat q => q
  | .pyStr _ => 0

/-- `Tag._convert_initial` of core/tag.py: convert a value to the tag's
declared type; `byte` masks with `& 0xFF`, which on Python integers equals
reduction modulo 256. -/
def convert_initial (dt : DataType) (v : PyValue) : Option PyValue :=
  match dt with
  | .BOOL => some (.pyBool v.truthy)
  | .INT => v.toPyInt.map .pyInt
  | .FLOAT => v.toFloatQ.map .pyFloat
  | .BYTE => v.toPyInt.map (fun n => .pyInt (n % 256))
  | .STRING => some (.pyStr v.toPyStr)

/-- The two successive clamping `if`s of core/tag.py (lines 73-76 and
103-106): apply the lower bound when `min_value` is set, then the upper
bound when `max_value` is set. -/
def clampOpt (mi ma : Option ℚ) (x : ℚ) : ℚ :=
  let y :=
    match mi with
    | some m => max m x
    | none => x
  match ma with
  | some M => min M y
  | none => y

/-- One tag record of the configuration (spec section 6). -/
structure TagConfig where
  name : String
  address : String
  type : String
  access : Option String
  unit : Option String
  min : Option ℚ
  max : Option ℚ
  initial : PyValue
deriving DecidableEq, Repr

/-- The spec's `ConfigError`: in the code, a `ValueError` raised by the
`DataType`/`AccessType` enum constructors or the initial-value coercion. -/
inductive ConfigError
  | invalidDataType (s : String)
  | invalidAccess (s : String)
  | badInitial
deriving DecidableEq, Repr

/-- The `Tag` state of core/tag.py. -/
structure Tag where
  name : String
  address : String
  data_type : DataType
  access : AccessType
  unit : String
  min_value : Option ℚ
  max_value : Option ℚ
  _value : PyValue
  _original_value : PyValue
  quality : String
  noise_enabled : Bool
  drift_enabled : Bool
  drift_rate : ℚ
deriving DecidableEq, Repr

/-- `Tag.__init__` of core/tag.py: the enum constructions and the initial
coercion run in source order; any failure aborts construction. -/
def Tag.init (config : TagConfig) : Except ConfigError Tag :=
  match DataType.ofString config.type with
  | none => .error (.invalidDataType config.type)
  | some dt =>
    match AccessType.ofString (config.access.getD "RO") with
    | none => .error (.invalidAccess (config.access.getD "RO"))
    | some acc =>
      match convert_initial dt config.initial with
      | none => .error .badInitial
      | some v =>
        .ok
          { name := config.name
            address := config.address
            data_type := dt
            access := acc
            unit := config.unit.getD ""
            min_value := config.min
            max_value := config.max
            _value := v
            _original_value := v
            quality := "GOOD"
            noise_enabled := true
            drift_enabled := true
            drift_rate := 1/1000 }

/-- The `value` property getter of core/tag.py (ObserveValue).  `z` is the
standard normal sample behind `random.gauss(0, abs(v) * 0.02)`, so the
noise term is `|v| * 0.02 * z`.  The getter's body contains no assignment
to `self._value`, hence the post-state returned is the receiver itself. -/
def Tag.value (t : Tag) (z : ℚ) : PyValue × Tag :=
  if t.noise_enabled = false then (t._value, t)
  else if t.data_type = .INT ∨ t.data_type = .FLOAT then
    let noise := |t._value.toRat| * (2/100) * z
    let noisy_value := clampOpt t.min_value t.max_value (t._value.toRat + noise)
    if t.data_type = .INT then (.pyInt (truncQ noisy_value), t)
    else (.pyFloat noisy_value, t)
  else (t._value, t)

/-- The `value` property setter of core/tag.py (ApplyWrite): on a
read-write tag, store `_convert_initial(new_value)` (a coercion failure
raises, modelled as `none`); on a read-only tag, do nothing. -/
def Tag.set_value (t : Tag) (new_value : PyValue) : Option Tag :=
  if t.access = .READ_WRITE then
    (convert_initial t.data_type new_value).map (fun v => { t with _value := v })
  else some t

/-- `Tag.update_simulation` of core/tag.py (AdvanceSimulation).  `s` is the
sample behind `random.uniform(-self.drift_rate, self.drift_rate)`; theorems
constrain it by `|s| ≤ drift_rate`. -/
def Tag.update_simulation (t : Tag) (s : ℚ) (dt : ℚ) : Tag :=
  if t.drift_enabled = false ∨ t.access = .READ_WRITE then t
  else if t.data_type = .INT ∨ t.data_type = .FLOAT then
    let drift := s * dt
    let new_value := clampOpt t.min_value t.max_value (t._value.toRat + drift)
    if t.data_type = .INT then { t with _value := .pyInt (truncQ new_value) }
    else { t with _value := .pyFloat new_value }
  else t

/-- The stored value is a well-typed representative of the declared
`data_type` (spec section 3 invariant, representation half). -/
def repMatches (d : DataType) (w : PyValue) : Bool :=
  match d, w with
  | .BOOL, .pyBool _ => true
  | .INT, .pyInt _ => true
  | .FLOAT, .pyFloat _ => true
  | .BYTE, .pyInt n => decide (0 ≤ n) && decide (n < 256)
  | .STRING, .pyStr _ => true
  | _, _ => false

/-- Representation half of the tag invariant. -/
def Tag.repOk (t : Tag) : Bool := repMatches t.data_type t._value

/-- Bounds half of the tag invariant: `min ≤ internalValue ≤ max` for the
bounds that are set. -/
def Tag.inBounds (t : Tag) : Bool :=
  (match t.min_value with
   | some m => decide (m ≤ t._value.toRat)
   | none => true) &&
  (match t.max_value with
   | some M => decide (t._value.toRat ≤ M)
   | none => true)

/-- Python dict insertion (`self.tags[tag.name] = tag`): replace in place
when the key exists, otherwise append. -/
def dictInsertTag (d : List (String × Tag)) (k : String) (v : Tag) : List (String × Tag) :=
  if d.any (fun p => p.1 == k) then
    d.map (fun p => if p.1 == k then (k, v) else p)
  else d ++ [(k, v)]

/-- The tag-construction loop of `DataBlock.__init__`: the first raising
`Tag` constructor aborts the whole block. -/
def buildTags : List (String × Tag) → List TagConfig → Except ConfigError (List (String × Tag))
  | acc, [] => .ok acc
  | acc, c :: rest =>
    match Tag.init c with
    | .error e => .error e
    | .ok t => buildTags (dictInsertTag acc t.name t) rest

/-- The `DataBlock` state of core/data_block.py: an insertion-ordered
mapping from tag name to Tag. -/
structure DataBlock where
  db_number : ℤ
  name : String
  tags : List (String × Tag)
deriving DecidableEq, Repr

/-- `DataBlock.__init__` of core/data_block.py. -/
def DataBlock.init (db_number : ℤ) (name : String) (tags_config : List TagConfig) :
    Except ConfigError DataBlock :=
  (buildTags [] tags_config).map (fun ts => { db_number := db_number, name := name, tags := ts })

/-- `DataBlock.get_all_tags`: the dict's values in insertion order. -/
def DataBlock.get_all_tags (db : DataBlock) : List Tag := db.tags.map Prod.snd

/-- `DataBlock.get_tag_by_address` of core/data_block.py: note the body
compares each tag's address against `f"DB{self.db_number}.{address}"`,
i.e. the parameter is prefixed with the block id before matching. -/
def DataBlock.get_tag_by_address (db : DataBlock) (address : String) : Option Tag :=
  let expected := "DB" ++ toString db.db_number ++ "." ++ address
  db.get_all_tags.find? (fun t => t.address == expected)

/-- `DataBlock.update_simulation`: advance every owned tag; `samples` gives
each tag's independent `random.uniform` draw, keyed by address. -/
def DataBlock.update_simulation (db : DataBlock) (samples : String → ℚ) (dt : ℚ) : DataBlock :=
  { db with tags := db.tags.map (fun p => (p.1, p.2.update_simulation (samples p.2.address) dt)) }

/-- One block record of the configuration list fed to
`PLCSimulator.load_configuration`. -/
structure DBConfig where
  db_number : ℤ
  name : String
  tags : List TagConfig
deriving DecidableEq, Repr

/-- The engine state of core/plc.py (`PLCSimulator`): the blocks dict
keyed by `db_number` plus the diagnostic counters.  Protocol-server state
is out of scope. -/
structure PLCSimulator where
  data_blocks : List (ℤ × DataBlock)
  read_count : ℕ
  write_count : ℕ
deriving DecidableEq, Repr

/-- `PLCSimulator.__init__`: empty blocks dict, zeroed counters. -/
def plcInit : PLCSimulator := { data_blocks := [], read_count := 0, write_count := 0 }

/-- Python dict insertion for the blocks dict
(`self.data_blocks[db.db_number] = db`). -/
def dictInsertDB (d : List (ℤ × DataBlock)) (k : ℤ) (v : DataBlock) : List (ℤ × DataBlock) :=
  if d.any (fun p => p.1 == k) then
    d.map (fun p => if p.1 == k then (k, v) else p)
  else d ++ [(k, v)]

/-- `PLCSimulator.load_configuration` of core/plc.py: each constructed
block is stored into `self.data_blocks` before the next config entry is
processed, so a raising entry leaves the earlier blocks in place.  The
raised `ConfigError` is surfaced in the second component. -/
def PLCSimulator.load_configuration :
    PLCSimulator → List DBConfig → PLCSimulator × Option ConfigError
  | plc, [] => (plc, none)
  | plc, c :: rest =>
    match DataBlock.init c.db_number c.name c.tags with
    | .error e => (plc, some e)
    | .ok db =>
      PLCSimulator.load_configuration
        { plc with data_blocks := dictInsertDB plc.data_blocks db.db_number db } rest

/-- Observable events of one iteration of `PLCSimulator.update_loop`. -/
inductive TickEvent
  | advance (db_number : ℤ)
  | publish (address : String)
deriving DecidableEq, Repr

def TickEvent.isAdvance : TickEvent → Bool
  | .advance _ => true
  | _ => false

/-- The event trace of one tick of `update_loop` (core/plc.py lines
186-211): the loop walks the blocks in dict order and, for each block,
first calls `db.update_simulation(dt)` and then publishes every one of
THAT block's tags before moving to the next block.  (After
`init_opcua_server` every tag has its `opcua_node` set, so the
`hasattr` guard on the publish step passes for every tag.) -/
def tickTraceBlocks (bs : List (ℤ × DataBlock)) : List TickEvent :=
  (bs.map (fun p =>
    TickEvent.advance p.2.db_number ::
      p.2.get_all_tags.map (fun t => TickEvent.publish t.address))).flatten

def PLCSimulator.tickTrace (plc : PLCSimulator) : List TickEvent :=
  tickTraceBlocks plc.data_blocks

/-- The ordering asserted by the claim: once any value has been published,
no block advance happens later in the same tick (equivalently, every
advance precedes every publish). -/
def noAdvanceAfterPublish : List TickEvent → Bool
  | [] => true
  | .advance _ :: rest => noAdvanceAfterPublish rest
  | .publish _ :: rest => rest.all (fun e => !e.isAdvance)

/-- Sequential search for the first tag (in dict-values order) whose own
`address` field equals the given full address. -/
def find_tag_list : List (String × Tag) → String → Option Tag
  | [], _ => none
  | (_, t) :: rest, addr => if t.address == addr then some t else find_tag_list rest addr

/-- Full-address tag search across all blocks, in blocks-dict order. -/
def find_tag_blocks : List (ℤ × DataBlock) → String → Option Tag
  | [], _ => none
  | (_, db) :: rest, addr =>
    match find_tag_list db.tags addr with
    | some t => some t
    | none => find_tag_blocks rest addr

/-- Write through a tag list: replace the first tag whose full address
matches with the result of its `value` setter (a dropped coercion failure
leaves the tag unchanged), returning the updated list together with the
tag as it was found. -/
def write_tag_list : List (String × Tag) → String → PyValue → Option (List (String × Tag) × Tag)
  | [], _, _ => none
  | (k, t) :: rest, addr, nv =>
    if t.address == addr then
      some ((k, (t.set_value nv).getD t) :: rest, t)
    else
      (write_tag_list rest addr nv).map (fun r => ((k, t) :: r.1, r.2))

/-- Write through the blocks dict: the write lands in the first block
owning a tag with the given full address. -/
def write_block_list :
    List (ℤ × DataBlock) → String → PyValue → Option (List (ℤ × DataBlock) × Tag)
  | [], _, _ => none
  | (k, db) :: rest, addr, nv =>
    match write_tag_list db.tags addr nv with
    | some r => some ((k, { db with tags := r.1 }) :: rest, r.2)
    | none => (write_block_list rest addr nv).map (fun r => ((k, db) :: r.1, r.2))

/-- Result of an external write request, per the spec's error taxonomy. -/
inductive WriteResult
  | notFound
  | applied
  | ignored
deriving DecidableEq, Repr

/-- Modelled from the spec: `HandleExternalWrite(address, value)` of spec
section 4.3 is absent from src/ — core/plc.py only declares the
`write_count` counter (line 37) and marks RW tags writable on the protocol
server (line 147); no engine code routes an external write to a Tag.
Following the spec's words: look the Tag up across all Blocks (signal
`NotFound` when no Block contains a tag with that full address), call
ApplyWrite (the `value` setter) on the found Tag, and increment
`write_count` exactly when the tag's access permitted the write. -/
def PLCSimulator.handleExternalWrite (plc : PLCSimulator) (address : String) (v : PyValue) :
    PLCSimulator × WriteResult :=
  match write_block_list plc.data_blocks address v with
  | none => (plc, .notFound)
  | some r =>
    if r.2.access = .READ_WRITE then
      ({ plc with data_blocks := r.1, write_count := plc.write_count + 1 }, .applied)
    else
      ({ plc with data_blocks := r.1 }, .ignored)

/-- A sequence of drift steps applied to a single tag: each list entry is
one `update_simulation` call, carrying its uniform sample and its Δt. -/
def Tag.run_drift : Tag → List (ℚ × ℚ) → Tag
  | t, [] => t
  | t, p :: rest => Tag.run_drift (t.update_simulation p.1 p.2) rest

/-! ### Concrete fixtures (tag/block/engine configurations from the
spec's scenarios, built through the constructors of the code) -/

/-- The `Temperature` tag config of the bounded-drift scenario: read-only
float, initial 75.0, bounds [0, 150]. -/
def temperatureCfg : TagConfig :=
  { name := "Temperature", address := "DB1.Temperature", type := "float",
    access := none, unit := some "C", min := some 0, max := some 150,
    initial := .pyFloat 75 }

/-- The tag `Tag.__init__` builds from `temperatureCfg`. -/
def temperature : Tag :=
  { name := "Temperature", address := "DB1.Temperature", data_type := .FLOAT,
    access := .READ_ONLY, unit := "C", min_value := some 0, max_value := some 150,
    _value := .pyFloat 75, _original_value := .pyFloat 75, quality := "GOOD",
    noise_enabled := true, drift_enabled := true, drift_rate := 1/1000 }

/-- A config whose initial value 200 lies above its max bound 150; the
constructor performs no clamping, so it is accepted as-is. -/
def hotTempCfg : TagConfig :=
  { name := "HotTemp", address := "DB1.HotTemp", type := "float",
    access := none, unit := none, min := some 0, max := some 150,
    initial := .pyFloat 200 }

/-- The tag `Tag.__init__` builds from `hotTempCfg`: its stored value 200
violates the bounds invariant. -/
def hotTemp : Tag :=
  { name := "HotTemp", address := "DB1.HotTemp", data_type := .FLOAT,
    access := .READ_ONLY, unit := "", min_value := some 0, max_value := some 150,
    _value := .pyFloat 200, _original_value := .pyFloat 200, quality := "GOOD",
    noise_enabled := true, drift_enabled := true, drift_rate := 1/1000 }

/-- The `Speed` tag config of the write scenario: read-write integer,
initial 1500, bounds [0, 3000]. -/
def speedCfg : TagConfig :=
  { name := "Speed", address := "DB1.Speed", type := "int",
    access := some "RW", unit := some "rpm", min := some 0, max := some 3000,
    initial := .pyInt 1500 }

/-- The tag `Tag.__init__` builds from `speedCfg`. -/
def speed : Tag :=
  { name := "Speed", address := "DB1.Speed", data_type := .INT,
    access := .READ_WRITE, unit := "rpm", min_value := some 0, max_value := some 3000,
    _value := .pyInt 1500, _original_value := .pyInt 1500, quality := "GOOD",
    noise_enabled := true, drift_enabled := true, drift_rate := 1/1000 }

/-- A tag config with the unrecognized data type "currency": the
`DataType` enum constructor raises, i.e. `ConfigError`. -/
def currencyCfg : TagConfig :=
  { name := "Price", address := "DB2.Price", type := "currency",
    access := none, unit := none, min := none, max := none,
    initial := .pyFloat 0 }

/-- A well-formed block config holding the `Speed` tag. -/
def motorCfg : DBConfig := { db_number := 1, name := "MotorControl", tags := [speedCfg] }

/-- A malformed block config: its single tag has type "currency". -/
def brokenCfg : DBConfig := { db_number := 2, name := "Broken", tags := [currencyCfg] }

/-- The block `DataBlock.__init__` builds from `motorCfg`. -/
def motorBlock : DataBlock :=
  { db_number := 1, name := "MotorControl", tags := [("Speed", speed)] }

/-- A read-only float sensor tag living in block 2. -/
def pressure : Tag :=
  { name := "Pressure", address := "DB2.Pressure", data_type := .FLOAT,
    access := .READ_ONLY, unit := "bar", min_value := some 0, max_value := some 10,
    _value := .pyFloat 5, _original_value := .pyFloat 5, quality := "GOOD",
    noise_enabled := true, drift_enabled := true, drift_rate := 1/1000 }

/-- A second block, used to exhibit the tick ordering across blocks. -/
def sensorBlock : DataBlock :=
  { db_number := 2, name := "Sensors", tags := [("Pressure", pressure)] }

/-- An engine holding two blocks (the blocks dict after loading them). -/
def twoBlockPLC : PLCSimulator :=
  { data_blocks := [(1, motorBlock), (2, sensorBlock)], read_count := 0, write_count := 0 }

/-! ### Helper lemmas about the embedded operations -/

/-- The early return of `update_simulation`: read-write tags and tags with
drift disabled are left untouched. -/
lemma update_simulation_noop (t : Tag) (s dt : ℚ)
    (h : t.access = .READ_WRITE ∨ t.drift_enabled = false) :
    t.update_simulation s dt = t := by
  rcases h with h | h <;> simp [Tag.update_simulation, h]

/-- The FLOAT drift branch of `update_simulation`. -/
lemma update_simulation_float (t : Tag) (s dt : ℚ)
    (h1 : t.drift_enabled = true) (h2 : t.access = .READ_ONLY) (h3 : t.data_type = .FLOAT) :
    t.update_simulation s dt =
      { t with _value := .pyFloat (clampOpt t.min_value t.max_value (t._value.toRat + s * dt)) } := by
  simp [Tag.update_simulation, h1, h2, h3]

/-- The INT drift branch of `update_simulation`: the drifted value is
truncated toward zero by `int(...)`. -/
lemma update_simulation_int (t : Tag) (s dt : ℚ)
    (h1 : t.drift_enabled = true) (h2 : t.access = .READ_ONLY) (h3 : t.data_type = .INT) :
    t.update_simulation s dt =
      { t with
        _value := .pyInt (truncQ (clampOpt t.min_value t.max_value (t._value.toRat + s * dt))) } := by
  simp [Tag.update_simulation, h1, h2, h3]

/-- Non-numeric tags are never drifted. -/
lemma update_simulation_nonnumeric (t : Tag) (s dt : ℚ)
    (h : t.data_type = .BOOL ∨ t.data_type = .BYTE ∨ t.data_type = .STRING) :
    t.update_simulation s dt = t := by
  rcases h with h | h | h <;> simp [Tag.update_simulation, h]

/-- Clamping a value that already satisfies the set bounds is the
identity. -/
lemma clampOpt_eq_self (mi ma : Option ℚ) (x : ℚ)
    (hmi : ∀ m, mi = some m → m ≤ x) (hma : ∀ M, ma = some M → x ≤ M) :
    clampOpt mi ma x = x := by
  unfold clampOpt
  cases mi with
  | none =>
    cases ma with
    | none => rfl
    | some M => simpa using min_eq_right (hma M rfl)
  | some m =>
    cases ma with
    | none => simpa using max_eq_right (hmi m rfl)
    | some M =>
      simp only []
      rw [max_eq_right (hmi m rfl), min_eq_right (hma M rfl)]

/-- A value clamped into ordered two-sided bounds lands in them. -/
lemma clampOpt_mem (m M x : ℚ) (h : m ≤ M) :
    m ≤ clampOpt (some m) (some M) x ∧ clampOpt (some m) (some M) x ≤ M := by
  unfold clampOpt
  exact ⟨le_min h (le_max_left m x), min_le_left M _⟩

/-- Two-sided clamping moves a point no further from any fixed point of
the bounds interval than it already was. -/
lemma clampOpt_dist (m M v x : ℚ) (hm : m ≤ v) (hM : v ≤ M) :
    |clampOpt (some m) (some M) x - v| ≤ |x - v| := by
  unfold clampOpt
  simp only []
  rcases le_total m x with h1 | h1
  · rw [max_eq_right h1]
    rcases le_total x M with h2 | h2
    · rw [min_eq_right h2]
    · rw [min_eq_left h2, abs_of_nonneg (by linarith), abs_of_nonneg (by linarith)]
      linarith
  · rw [max_eq_left h1, min_eq_right (le_trans hm hM),
      abs_of_nonpos (by linarith), abs_of_nonpos (by linarith)]
    linarith

/-- `int(x)` on a value that is already an integer is that integer. -/
lemma truncQ_intCast (n : ℤ) : truncQ (n : ℚ) = n := by
  unfold truncQ
  split
  · exact Int.floor_intCast n
  · exact Int.ceil_intCast n

/-- `_convert_initial` always produces a well-typed representative of the
target data type (bytes land in 0–255 through the `& 0xFF` mask). -/
lemma convert_initial_rep (d : DataType) (v w : PyValue)
    (h : convert_initial d v = some w) : repMatches d w = true := by
  cases d with
  | BOOL =>
    simp only [convert_initial, Option.some_inj] at h
    subst h; rfl
  | INT =>
    simp only [convert_initial] at h
    rcases Option.map_eq_some'.mp h with ⟨n, _, rfl⟩
    rfl
  | FLOAT =>
    simp only [convert_initial] at h
    rcases Option.map_eq_some'.mp h with ⟨q, _, rfl⟩
    rfl
  | BYTE =>
    simp only [convert_initial] at h
    rcases Option.map_eq_some'.mp h with ⟨n, _, rfl⟩
    simp only [repMatches, Bool.and_eq_true, decide_eq_true_eq]
    exact ⟨Int.emod_nonneg n (by norm_num), Int.emod_lt_of_pos n (by norm_num)⟩
  | STRING =>
    simp only [convert_initial, Option.some_inj] at h
    subst h; rfl

/-- The no-op half of the `value` setter. -/
lemma set_value_ro (t : Tag) (nv : PyValue) (h : t.access = .READ_ONLY) :
    t.set_value nv = some t := by
  simp [Tag.set_value, h]

/-- The accepting half of the `value` setter. -/
lemma set_value_rw (t : Tag) (nv : PyValue) (h : t.access = .READ_WRITE) :
    t.set_value nv = (convert_initial t.data_type nv).map (fun v => { t with _value := v }) := by
  simp [Tag.set_value, h]

/-- Whatever the setter does (accept, drop, or fail), the tag's address is
untouched. -/
lemma set_value_getD_address (t : Tag) (nv : PyValue) :
    ((t.set_value nv).getD t).address = t.address := by
  unfold Tag.set_value
  split
  · cases h : convert_initial t.data_type nv <;> simp [h]
  · rfl

/-- A tag produced by `Tag.__init__` stores a well-typed representative of
its declared data type. -/
lemma tag_init_rep (cfg : TagConfig) (t : Tag) (h : Tag.init cfg = .ok t) :
    t.repOk = true := by
  unfold Tag.init at h
  cases hd : DataType.ofString cfg.type with
  | none => simp [hd] at h
  | some d =>
    cases ha : AccessType.ofString (cfg.access.getD "RO") with
    | none => simp [hd, ha] at h
    | some acc =>
      cases hv : convert_initial d cfg.initial with
      | none => simp [hd, ha, hv] at h
      | some v =>
        simp only [hd, ha, hv, Except.ok.injEq] at h
        subst h
        exact convert_initial_rep d cfg.initial v hv

/-- The `value` setter keeps the stored value well-typed. -/
lemma set_value_rep (u u' : Tag) (nv : PyValue) (hrep : u.repOk = true)
    (h : u.set_value nv = some u') : u'.repOk = true := by
  unfold Tag.set_value at h
  split at h
  · rcases Option.map_eq_some'.mp h with ⟨v, hv, rfl⟩
    exact convert_initial_rep _ _ _ hv
  · simp only [Option.some_inj] at h
    subst h
    exact hrep

/-- `update_simulation` keeps the stored value well-typed. -/
lemma update_simulation_rep (u : Tag) (s dt : ℚ) (hrep : u.repOk = true) :
    (u.update_simulation s dt).repOk = true := by
  unfold Tag.update_simulation
  split
  · exact hrep
  · split
    · split
      · rename_i hnum hint
        simp [Tag.repOk, repMatches, hint]
      · rename_i hnum hnotint
        rcases hnum with h | h
        · exact absurd h hnotint
        · simp [Tag.repOk, repMatches, h]
    · exact hrep

/-- After a mutating drift step on a FLOAT tag with coherent two-sided
bounds, the stored value lies within the bounds. -/
lemma update_simulation_float_inBounds (u : Tag) (s dt : ℚ)
    (h3 : u.data_type = .FLOAT) (h1 : u.drift_enabled = true) (h2 : u.access = .READ_ONLY)
    (m M : ℚ) (hm : u.min_value = some m) (hM : u.max_value = some M) (hmM : m ≤ M) :
    (u.update_simulation s dt).inBounds = true := by
  rw [update_simulation_float u s dt h1 h2 h3]
  simp only [Tag.inBounds, hm, hM, PyValue.toRat, Bool.and_eq_true, decide_eq_true_eq]
  exact clampOpt_mem m M (u._value.toRat + s * dt) hmM

/-! ### Claim C1 -/

/-- Claim C1, counterexample: loading a configuration list whose second
block is malformed (tag type "currency") signals `ConfigError` but leaves
the first constructed Block in the Engine — one Block, not zero. -/
theorem load_configuration_partial_cex :
    (PLCSimulator.load_configuration plcInit [motorCfg, brokenCfg]).2 =
      some (.invalidDataType "currency") ∧
    (PLCSimulator.load_configuration plcInit [motorCfg, brokenCfg]).1.data_blocks =
      [(1, motorBlock)] :=
  ⟨rfl, rfl⟩

/-- Claim C1, amended: Engine configuration fails fast with `ConfigError`
on the first invalid block config, the invalid Block itself contributes
nothing (per-Block all-or-nothing), but Blocks constructed from earlier
configs remain stored — the Engine is left with exactly the Blocks of the
valid prefix, hence with zero Blocks only when the invalid config is the
first one. -/
theorem load_configuration_fail_fast (plc : PLCSimulator)
    (pre : List DBConfig) (c : DBConfig) (post : List DBConfig)
    (hpre : ∀ d ∈ pre, ∃ db, DataBlock.init d.db_number d.name d.tags = .ok db)
    (hc : ∃ e, DataBlock.init c.db_number c.name c.tags = .error e) :
    (∃ e, (PLCSimulator.load_configuration plc (pre ++ c :: post)).2 = some e) ∧
    (PLCSimulator.load_configuration plc (pre ++ c :: post)).1 =
      (PLCSimulator.load_configuration plc pre).1 ∧
    (pre = [] → (PLCSimulator.load_configuration plc (pre ++ c :: post)).1 = plc) := by
  induction pre generalizing plc with
  | nil =>
    rcases hc with ⟨e, he⟩
    refine ⟨⟨e, ?_⟩, ?_, fun _ => ?_⟩ <;>
      simp [PLCSimulator.load_configuration, he]
  | cons d rest ih =>
    rcases hpre d (List.mem_cons_self d rest) with ⟨db, hdb⟩
    have hrest : ∀ x ∈ rest, ∃ b, DataBlock.init x.db_number x.name x.tags = .ok b :=
      fun x hx => hpre x (List.mem_cons_of_mem d hx)
    have h :=
      ih { plc with data_blocks := dictInsertDB plc.data_blocks db.db_number db } hrest
    refine ⟨?_, ?_, fun habs => absurd habs (List.cons_ne_nil d rest)⟩
    · simpa [PLCSimulator.load_configuration, hdb] using h.1
    · simpa [PLCSimulator.load_configuration, hdb] using h.2.1

/-- Claim C1, witness: the amended theorem applied to a configuration
whose only block is the malformed one — then zero Blocks remain. -/
theorem load_configuration_fail_fast_witness :
    (∃ e, (PLCSimulator.load_configuration plcInit ([] ++ brokenCfg :: [])).2 = some e) ∧
    (PLCSimulator.load_configuration plcInit ([] ++ brokenCfg :: [])).1 =
      (PLCSimulator.load_configuration plcInit []).1 ∧
    (([] : List DBConfig) = [] →
      (PLCSimulator.load_configuration plcInit ([] ++ brokenCfg :: [])).1 = plcInit) :=
  load_configuration_fail_fast plcInit [] brokenCfg []
    (fun d hd => absurd hd (List.not_mem_nil d))
    ⟨.invalidDataType "currency", rfl⟩

/-! ### Claim C2 -/

/-- Claim C2, counterexample: on the read-write `Speed` tag with bounds
[0, 3000], writing max+1 = 3001 stores 3001 — the setter performs no
clamping, contradicting "writing max+1 stores exactly max". -/
theorem set_value_no_clamp_cex :
    speed.access = .READ_WRITE ∧ speed.max_value = some 3000 ∧
    (speed.set_value (.pyInt 3001)).map (fun t => t._value) = some (.pyInt 3001) ∧
    some (PyValue.pyInt 3001) ≠ some (PyValue.pyInt 3000) := by
  refine ⟨rfl, rfl, rfl, by decide⟩

/-- Claim C2, amended: `ApplyWrite` is accepted only on read-write tags and
is a silent no-op on read-only tags; on acceptance the value is coerced to
`dataType` and stored WITHOUT clamping to the bounds — in particular, on a
read-write integer tag any written integer (such as max+1) is stored
as-is. -/
theorem set_value_spec (t : Tag) (nv : PyValue) :
    (t.access = .READ_ONLY → t.set_value nv = some t) ∧
    (t.access = .READ_WRITE →
      t.set_value nv = (convert_initial t.data_type nv).map (fun v => { t with _value := v })) ∧
    (∀ k : ℤ, t.access = .READ_WRITE → t.data_type = .INT →
      t.set_value (.pyInt k) = some { t with _value := .pyInt k }) := by
  refine ⟨set_value_ro t nv, set_value_rw t nv, ?_⟩
  intro k h1 h2
  rw [set_value_rw t (.pyInt k) h1, h2]
  rfl

/-- Claim C2, witness: writing 3001 into the `Speed` tag stores 3001. -/
theorem set_value_spec_witness :
    speed.set_value (.pyInt 3001) = some { speed with _value := .pyInt 3001 } :=
  (set_value_spec speed (.pyInt 3001)).2.2 3001 rfl rfl

/-! ### Claim C3 -/

/-- Claim C3, counterexample: construction does not establish the bounds
half of the invariant — `Tag.__init__` accepts initial value 200 on a tag
bounded by [0, 150] and stores it unclamped. -/
theorem tag_invariant_bounds_cex :
    Tag.init hotTempCfg = .ok hotTemp ∧
    hotTemp.max_value = some 150 ∧
    hotTemp._value = .pyFloat 200 ∧
    hotTemp.inBounds = false :=
  ⟨rfl, rfl, rfl, rfl⟩

/-- Claim C3, amended: the representation half of the invariant
(`internalValue` matches `dataType`; bytes lie in 0–255) holds after
construction and is preserved by `ApplyWrite` and `AdvanceSimulation`;
the bounds half is NOT established by construction nor enforced by
`ApplyWrite`, while the mutation performed by `AdvanceSimulation` does
store an in-bounds value (shown here for FLOAT tags with coherent
two-sided bounds). -/
theorem tag_invariant_spec (cfg : TagConfig) (t u u' : Tag) (nv : PyValue) (s dt : ℚ) :
    (Tag.init cfg = .ok t → t.repOk = true) ∧
    (u.repOk = true → u.set_value nv = some u' → u'.repOk = true) ∧
    (u.repOk = true → (u.update_simulation s dt).repOk = true) ∧
    (u.data_type = .FLOAT → u.drift_enabled = true → u.access = .READ_ONLY →
      ∀ m M, u.min_value = some m → u.max_value = some M → m ≤ M →
        (u.update_simulation s dt).inBounds = true) :=
  ⟨tag_init_rep cfg t,
   fun h1 h2 => set_value_rep u u' nv h1 h2,
   fun h => update_simulation_rep u s dt h,
   fun h3 h1 h2 m M hm hM hmM => update_simulation_float_inBounds u s dt h3 h1 h2 m M hm hM hmM⟩

/-- Claim C3, witness: the constructed `Temperature` tag is well-typed,
and a drift step on it lands within its bounds. -/
theorem tag_invariant_spec_witness :
    temperature.repOk = true ∧ (temperature.update_simulation 1 1).inBounds = true :=
  ⟨(tag_invariant_spec temperatureCfg temperature temperature temperature (.pyInt 0) 1 1).1 rfl,
   (tag_invariant_spec temperatureCfg temperature temperature temperature (.pyInt 0) 1 1).2.2.2
     rfl rfl rfl 0 150 rfl rfl (by norm_num)⟩

/-! ### Claim C4 -/

/-- Branch lemma: with noise enabled, non-numeric types are returned
unchanged by the `value` getter. -/
lemma value_nonnumeric (t : Tag) (z : ℚ) (hn : t.noise_enabled = true)
    (h : t.data_type = .BOOL ∨ t.data_type = .BYTE ∨ t.data_type = .STRING) :
    t.value z = (t._value, t) := by
  rcases h with h | h | h <;> simp [Tag.value, hn, h]

/-- Branch lemma: the INT observation path. -/
lemma value_int (t : Tag) (z : ℚ) (hn : t.noise_enabled = true) (h : t.data_type = .INT) :
    t.value z = (.pyInt (truncQ (clampOpt t.min_value t.max_value
      (t._value.toRat + |t._value.toRat| * (2/100) * z))), t) := by
  simp [Tag.value, hn, h]

/-- Branch lemma: the FLOAT observation path. -/
lemma value_float (t : Tag) (z : ℚ) (hn : t.noise_enabled = true) (h : t.data_type = .FLOAT) :
    t.value z = (.pyFloat (clampOpt t.min_value t.max_value
      (t._value.toRat + |t._value.toRat| * (2/100) * z)), t) := by
  simp [Tag.value, hn, h]

/-- Claim C4 (confirmed): ObserveValue returns `internalValue` unchanged
for boolean/text/byte tags; for integer/float tags it returns
`internalValue` plus the Gaussian noise sample scaled by 2% of
`|internalValue|` (hence exactly zero noise when the value is 0, making
the observation independent of the sample), clamped into the set bounds
and re-coerced — truncating, for INT — and it never mutates the tag.
`z`, `w` are standard normal samples; every tag the program constructs has
`noise_enabled = true` (set in `Tag.__init__`, never cleared). -/
theorem observe_value_spec (t : Tag) (z w : ℚ) (hn : t.noise_enabled = true) :
    ((t.data_type = .BOOL ∨ t.data_type = .BYTE ∨ t.data_type = .STRING) →
      t.value z = (t._value, t)) ∧
    (t.data_type = .INT → t.value z = (.pyInt (truncQ (clampOpt t.min_value t.max_value
      (t._value.toRat + |t._value.toRat| * (2/100) * z))), t)) ∧
    (t.data_type = .FLOAT → t.value z = (.pyFloat (clampOpt t.min_value t.max_value
      (t._value.toRat + |t._value.toRat| * (2/100) * z)), t)) ∧
    (t._value.toRat = 0 → t.value z = t.value w) ∧
    (t.value z).2 = t := by
  refine ⟨value_nonnumeric t z hn, value_int t z hn, value_float t z hn, ?_, ?_⟩
  · intro h0
    cases hdt : t.data_type with
    | BOOL => rw [value_nonnumeric t z hn (Or.inl hdt), value_nonnumeric t w hn (Or.inl hdt)]
    | BYTE =>
      rw [value_nonnumeric t z hn (Or.inr (Or.inl hdt)),
        value_nonnumeric t w hn (Or.inr (Or.inl hdt))]
    | STRING =>
      rw [value_nonnumeric t z hn (Or.inr (Or.inr hdt)),
        value_nonnumeric t w hn (Or.inr (Or.inr hdt))]
    | INT => rw [value_int t z hn hdt, value_int t w hn hdt, h0]; simp
    | FLOAT => rw [value_float t z hn hdt, value_float t w hn hdt, h0]; simp
  · cases hdt : t.data_type with
    | BOOL => rw [value_nonnumeric t z hn (Or.inl hdt)]
    | BYTE => rw [value_nonnumeric t z hn (Or.inr (Or.inl hdt))]
    | STRING => rw [value_nonnumeric t z hn (Or.inr (Or.inr hdt))]
    | INT => rw [value_int t z hn hdt]
    | FLOAT => rw [value_float t z hn hdt]

/-- Claim C4, witness: observing `Temperature` with noise sample 0 yields
the clamped unperturbed value and leaves the tag untouched. -/
theorem observe_value_spec_witness :
    temperature.value 0 = (.pyFloat (clampOpt temperature.min_value temperature.max_value
      (temperature._value.toRat + |temperature._value.toRat| * (2/100) * 0)), temperature) :=
  (observe_value_spec temperature 0 1 rfl).2.2.1 rfl

/-! ### Claim C5 -/

/-- Claim C5, counterexample: in a two-block engine, the tick trace
publishes block 1's tag before block 2 is advanced — the claim's
"all Blocks advanced before any publish" ordering is violated. -/
theorem tick_order_across_blocks_cex :
    twoBlockPLC.tickTrace =
      [.advance 1, .publish "DB1.Speed", .advance 2, .publish "DB2.Pressure"] ∧
    noAdvanceAfterPublish twoBlockPLC.tickTrace = false :=
  ⟨rfl, rfl⟩

/-- Unfolding of the tick trace over the first block. -/
lemma tickTraceBlocks_cons (b : ℤ × DataBlock) (tl : List (ℤ × DataBlock)) :
    tickTraceBlocks (b :: tl) =
      TickEvent.advance b.2.db_number ::
        (b.2.get_all_tags.map (fun t => TickEvent.publish t.address) ++ tickTraceBlocks tl) := by
  simp [tickTraceBlocks]

/-- In the tick trace, each block's advance event precedes the publish
events of that block's own tags. -/
lemma trace_order_aux (bs : List (ℤ × DataBlock)) (k : ℤ) (db : DataBlock) (p : String × Tag)
    (hdb : (k, db) ∈ bs) (hp : p ∈ db.tags) :
    ∃ i j : ℕ, i < j ∧ (tickTraceBlocks bs)[i]? = some (TickEvent.advance db.db_number) ∧
      (tickTraceBlocks bs)[j]? = some (TickEvent.publish p.2.address) := by
  induction bs with
  | nil => cases hdb
  | cons b tl ih =>
    rcases List.mem_cons.mp hdb with heq | hmem
    · subst heq
      rcases List.getElem_of_mem hp with ⟨n, hn, hpn⟩
      refine ⟨0, n + 1, by omega, ?_, ?_⟩
      · rw [tickTraceBlocks_cons]
        simp
      · rw [tickTraceBlocks_cons]
        simp only [List.getElem?_cons_succ]
        rw [List.getElem?_append_left (by simpa [DataBlock.get_all_tags] using hn)]
        have hidx : db.tags[n]? = some p := by
          rw [List.getElem?_eq_getElem hn, hpn]
        simp [DataBlock.get_all_tags, hidx]
    · rcases ih hmem with ⟨i, j, hij, hi, hj⟩
      refine ⟨(b.2.get_all_tags.map (fun t => TickEvent.publish t.address)).length + i + 1,
        (b.2.get_all_tags.map (fun t => TickEvent.publish t.address)).length + j + 1,
        by omega, ?_, ?_⟩
      · rw [tickTraceBlocks_cons]
        simp only [List.getElem?_cons_succ]
        rw [List.getElem?_append_right (by omega)]
        simpa using hi
      · rw [tickTraceBlocks_cons]
        simp only [List.getElem?_cons_succ]
        rw [List.getElem?_append_right (by omega)]
        simpa using hj

/-- Claim C5, amended: within one tick of `update_loop`, each Block is
advanced before any of ITS OWN tags is observed/published; blocks are
processed sequentially, so a later block is not yet advanced when an
earlier block's tags are published. -/
theorem tick_advance_before_own_publish (plc : PLCSimulator) (k : ℤ) (db : DataBlock)
    (p : String × Tag) (hdb : (k, db) ∈ plc.data_blocks) (hp : p ∈ db.tags) :
    ∃ i j : ℕ, i < j ∧ plc.tickTrace[i]? = some (TickEvent.advance db.db_number) ∧
      plc.tickTrace[j]? = some (TickEvent.publish p.2.address) :=
  trace_order_aux plc.data_blocks k db p hdb hp

/-- Claim C5, witness: in the two-block engine, block 2's advance precedes
the publish of its own `Pressure` tag. -/
theorem tick_advance_before_own_publish_witness :
    ∃ i j : ℕ, i < j ∧ twoBlockPLC.tickTrace[i]? = some (TickEvent.advance sensorBlock.db_number) ∧
      twoBlockPLC.tickTrace[j]? = some (TickEvent.publish ("Pressure", pressure).2.address) :=
  tick_advance_before_own_publish twoBlockPLC 2 sensorBlock ("Pressure", pressure)
    (by simp [twoBlockPLC]) (by simp [sensorBlock])

/-! ### Claim C6 -/

/-- Claim C6, counterexample: `get_tag_by_address` prefixes its argument
with `"DB<number>."` before matching, so looking up the full address
"DB1.Speed" misses even though a tag with exactly that address exists in
the block — it does not return the tag whose full address equals the
given address. -/
theorem lookup_full_address_cex :
    speed ∈ motorBlock.get_all_tags ∧ speed.address = "DB1.Speed" ∧
    motorBlock.get_tag_by_address "DB1.Speed" = none := by
  refine ⟨?_, rfl, rfl⟩
  simp [motorBlock, DataBlock.get_all_tags]

/-- Claim C6, amended: `Lookup` takes the name part of the address (the
part after `"DB<number>."`), not the full address: it returns the first
owned Tag whose full address field equals `"DB<number>." ++ argument`, and
returns the `NotFound` condition (`None`) exactly when no owned tag has
that full address — never an unrelated error, never a default tag. -/
theorem lookup_spec (db : DataBlock) (addr : String) :
    (∀ t, db.get_tag_by_address addr = some t →
      t ∈ db.get_all_tags ∧ t.address = "DB" ++ toString db.db_number ++ "." ++ addr) ∧
    (db.get_tag_by_address addr = none ↔
      ∀ t ∈ db.get_all_tags, t.address ≠ "DB" ++ toString db.db_number ++ "." ++ addr) := by
  constructor
  · intro t h
    simp only [DataBlock.get_tag_by_address] at h
    exact ⟨List.mem_of_find?_eq_some h, by simpa using List.find?_some h⟩
  · simp only [DataBlock.get_tag_by_address]
    rw [List.find?_eq_none]
    constructor
    · intro h t ht
      simpa using h t ht
    · intro h t ht
      simpa using h t ht

/-- Claim C6, witness: looking up the name part "Speed" in the motor block
returns the tag whose full address is "DB1.Speed". -/
theorem lookup_spec_witness :
    speed ∈ motorBlock.get_all_tags ∧
      speed.address = "DB" ++ toString motorBlock.db_number ++ "." ++ "Speed" :=
  (lookup_spec motorBlock "Speed").1 speed rfl

/-! ### Claim C7 -/

/-- Claim C7 (confirmed): `AdvanceSimulation(Δt)` leaves `internalValue`
unchanged on read-write tags and on tags with drift disabled; otherwise,
for INT/FLOAT tags it adds the uniform sample `s` (drawn from
`[-drift_rate, drift_rate]`) scaled by Δt to the stored value, clamps into
the set bounds, re-coerces to the data type (truncating for INT) and
stores the result; non-numeric tags are never drifted. -/
theorem advance_simulation_spec (t : Tag) (s dt : ℚ) :
    ((t.access = .READ_WRITE ∨ t.drift_enabled = false) → t.update_simulation s dt = t) ∧
    (t.drift_enabled = true → t.access = .READ_ONLY → t.data_type = .INT →
      t.update_simulation s dt = { t with _value := .pyInt (truncQ (clampOpt t.min_value
        t.max_value (t._value.toRat + s * dt))) }) ∧
    (t.drift_enabled = true → t.access = .READ_ONLY → t.data_type = .FLOAT →
      t.update_simulation s dt = { t with _value := .pyFloat (clampOpt t.min_value
        t.max_value (t._value.toRat + s * dt)) }) ∧
    ((t.data_type = .BOOL ∨ t.data_type = .BYTE ∨ t.data_type = .STRING) →
      t.update_simulation s dt = t) :=
  ⟨update_simulation_noop t s dt,
   fun h1 h2 h3 => update_simulation_int t s dt h1 h2 h3,
   fun h1 h2 h3 => update_simulation_float t s dt h1 h2 h3,
   update_simulation_nonnumeric t s dt⟩

/-- Claim C7, witness: a drift step on the read-write `Speed` tag is a
no-op, and a drift step on the read-only `Temperature` tag stores the
clamped drifted value. -/
theorem advance_simulation_spec_witness :
    speed.update_simulation (1/2000) 10 = speed ∧
    temperature.update_simulation (1/2000) 10 =
      { temperature with _value := .pyFloat (clampOpt temperature.min_value
        temperature.max_value (temperature._value.toRat + 1/2000 * 10)) } :=
  ⟨(advance_simulation_spec speed (1/2000) 10).1 (Or.inl rfl),
   (advance_simulation_spec temperature (1/2000) 10).2.2.1 rfl rfl rfl⟩

/-! ### Claim C8 -/

/-- A write through a tag list fails exactly when no tag there carries the
address. -/
lemma write_tag_list_none (l : List (String × Tag)) (addr : String) (nv : PyValue) :
    write_tag_list l addr nv = none ↔ find_tag_list l addr = none := by
  induction l with
  | nil => simp [write_tag_list, find_tag_list]
  | cons p rest ih =>
    obtain ⟨k, t⟩ := p
    by_cases h : t.address = addr
    · simp [write_tag_list, find_tag_list, h]
    · simp [write_tag_list, find_tag_list, h, ih]

/-- A write through a tag list lands on the first tag carrying the
address: it reports that tag as found, and afterwards the same lookup
yields the tag with the setter applied. -/
lemma write_tag_list_found (l : List (String × Tag)) (addr : String) (nv : PyValue) (t : Tag)
    (h : find_tag_list l addr = some t) :
    ∃ l', write_tag_list l addr nv = some (l', t) ∧
      find_tag_list l' addr = some ((t.set_value nv).getD t) := by
  induction l with
  | nil => simp [find_tag_list] at h
  | cons p rest ih =>
    obtain ⟨k, u⟩ := p
    by_cases hu : u.address = addr
    · simp only [find_tag_list, hu, beq_self_eq_true, if_true, Option.some_inj] at h
      subst h
      refine ⟨(k, (u.set_value nv).getD u) :: rest, ?_, ?_⟩
      · simp [write_tag_list, hu]
      · simp [find_tag_list, set_value_getD_address, hu]
    · simp only [find_tag_list, beq_iff_eq, hu, if_false] at h
      rcases ih h with ⟨l', hw, hf⟩
      refine ⟨(k, u) :: l', ?_, ?_⟩
      · simp [write_tag_list, hu, hw]
      · simp [find_tag_list, hu, hf]

/-- A write through the blocks dict fails exactly when no block owns a tag
carrying the address. -/
lemma write_block_list_none (bs : List (ℤ × DataBlock)) (addr : String) (nv : PyValue) :
    write_block_list bs addr nv = none ↔ find_tag_blocks bs addr = none := by
  induction bs with
  | nil => simp [write_block_list, find_tag_blocks]
  | cons p rest ih =>
    obtain ⟨k, db⟩ := p
    cases hf : find_tag_list db.tags addr with
    | none =>
      have hw : write_tag_list db.tags addr nv = none := (write_tag_list_none _ _ _).mpr hf
      simp [write_block_list, find_tag_blocks, hf, hw, ih]
    | some t =>
      rcases write_tag_list_found db.tags addr nv t hf with ⟨l', hw, _⟩
      simp [write_block_list, find_tag_blocks, hf, hw]

/-- A write through the blocks dict lands in the first block owning the
address, reports the found tag, and afterwards the same search yields the
written tag. -/
lemma write_block_list_found (bs : List (ℤ × DataBlock)) (addr : String) (nv : PyValue) (t : Tag)
    (h : find_tag_blocks bs addr = some t) :
    ∃ bs', write_block_list bs addr nv = some (bs', t) ∧
      find_tag_blocks bs' addr = some ((t.set_value nv).getD t) := by
  induction bs with
  | nil => simp [find_tag_blocks] at h
  | cons p rest ih =>
    obtain ⟨k, db⟩ := p
    cases hf : find_tag_list db.tags addr with
    | some u =>
      simp only [find_tag_blocks, hf, Option.some_inj] at h
      subst h
      rcases write_tag_list_found db.tags addr nv u hf with ⟨l', hw, hfind⟩
      refine ⟨(k, { db with tags := l' }) :: rest, ?_, ?_⟩
      · simp [write_block_list, hw]
      · simp [find_tag_blocks, hfind]
    | none =>
      have hw : write_tag_list db.tags addr nv = none := (write_tag_list_none _ _ _).mpr hf
      simp only [find_tag_blocks, hf] at h
      rcases ih h with ⟨bs', hwb, hfind⟩
      refine ⟨(k, db) :: bs', ?_, ?_⟩
      · simp [write_block_list, hw, hwb]
      · simp [find_tag_blocks, hf, hfind]

/-- Claim C8 (confirmed against the spec-modelled handler): an external
write signals `NotFound` and changes nothing exactly when no Block owns a
tag with the given full address; otherwise ApplyWrite is invoked on the
found Tag (a subsequent lookup sees the setter's result) and `write_count`
is incremented exactly when the found tag's access is read-write. -/
theorem handle_external_write_spec (plc : PLCSimulator) (addr : String) (nv : PyValue) :
    (find_tag_blocks plc.data_blocks addr = none →
      plc.handleExternalWrite addr nv = (plc, .notFound)) ∧
    (∀ t, find_tag_blocks plc.data_blocks addr = some t →
      (plc.handleExternalWrite addr nv).1.write_count =
        plc.write_count + (if t.access = .READ_WRITE then 1 else 0) ∧
      (plc.handleExternalWrite addr nv).2 =
        (if t.access = .READ_WRITE then WriteResult.applied else WriteResult.ignored) ∧
      find_tag_blocks (plc.handleExternalWrite addr nv).1.data_blocks addr =
        some ((t.set_value nv).getD t)) := by
  constructor
  · intro h
    have hw : write_block_list plc.data_blocks addr nv = none :=
      (write_block_list_none _ _ _).mpr h
    simp [PLCSimulator.handleExternalWrite, hw]
  · intro t h
    rcases write_block_list_found plc.data_blocks addr nv t h with ⟨bs', hw, hfind⟩
    by_cases hacc : t.access = .READ_WRITE
    · simp [PLCSimulator.handleExternalWrite, hw, hacc, hfind]
    · simp [PLCSimulator.handleExternalWrite, hw, hacc, hfind]

/-- Claim C8, witness: writing 2000 to "DB1.Speed" in the two-block engine
increments `write_count` (the tag is read-write), reports `applied`, and
stores the written value. -/
theorem handle_external_write_spec_witness :
    (twoBlockPLC.handleExternalWrite "DB1.Speed" (.pyInt 2000)).1.write_count =
      twoBlockPLC.write_count + (if speed.access = .READ_WRITE then 1 else 0) ∧
    (twoBlockPLC.handleExternalWrite "DB1.Speed" (.pyInt 2000)).2 =
      (if speed.access = .READ_WRITE then WriteResult.applied else WriteResult.ignored) ∧
    find_tag_blocks (twoBlockPLC.handleExternalWrite "DB1.Speed" (.pyInt 2000)).1.data_blocks
      "DB1.Speed" = some ((speed.set_value (.pyInt 2000)).getD speed) :=
  (handle_external_write_spec twoBlockPLC "DB1.Speed" (.pyInt 2000)).2 speed rfl

/-! ### Claim C9 -/

/-- Claim C9, counterexample: a zero-duration tick is NOT always a no-op —
on the reachable `HotTemp` tag (constructed with out-of-bounds initial
value 200), `AdvanceSimulation(0)` clamps the stored value to 150. -/
theorem advance_zero_changes_cex :
    Tag.init hotTempCfg = .ok hotTemp ∧
    hotTemp._value = .pyFloat 200 ∧
    (hotTemp.update_simulation 0 0)._value = .pyFloat 150 := by
  refine ⟨rfl, rfl, ?_⟩
  with_unfolding_all rfl

/-- Claim C9, amended: `AdvanceSimulation(0)` leaves `internalValue`
unchanged for every tag whose stored value is well-typed and already
satisfies its bounds (which is every tag except those that entered an
out-of-bounds state through construction or an unclamped write; on those,
the zero-duration tick can still clamp). -/
theorem advance_zero_noop (t : Tag) (s : ℚ) (hrep : t.repOk = true) (hb : t.inBounds = true) :
    t.update_simulation s 0 = t := by
  rw [Tag.inBounds, Bool.and_eq_true] at hb
  obtain ⟨hb1, hb2⟩ := hb
  have hmi : ∀ m, t.min_value = some m → m ≤ t._value.toRat := by
    intro m hm
    rw [hm] at hb1
    simpa using hb1
  have hma : ∀ M, t.max_value = some M → t._value.toRat ≤ M := by
    intro M hM
    rw [hM] at hb2
    simpa using hb2
  by_cases hwd : t.access = .READ_WRITE ∨ t.drift_enabled = false
  · exact update_simulation_noop t s 0 hwd
  · push_neg at hwd
    obtain ⟨hnw, hdr⟩ := hwd
    have hacc : t.access = .READ_ONLY := by
      cases hac : t.access with
      | READ_ONLY => rfl
      | READ_WRITE => exact absurd hac hnw
    have hdrift : t.drift_enabled = true := by
      cases hd : t.drift_enabled with
      | false => exact absurd hd hdr
      | true => rfl
    have e1 : t._value.toRat + s * 0 = t._value.toRat := by ring
    cases hdt : t.data_type with
    | INT =>
      rw [update_simulation_int t s 0 hdrift hacc hdt, e1,
        clampOpt_eq_self t.min_value t.max_value t._value.toRat hmi hma]
      rw [Tag.repOk, hdt] at hrep
      cases hv : t._value with
      | pyInt n =>
        simp only [PyValue.toRat, truncQ_intCast]
        rw [← hv]
      | pyBool b => rw [hv] at hrep; simp [repMatches] at hrep
      | pyFloat q => rw [hv] at hrep; simp [repMatches] at hrep
      | pyStr a => rw [hv] at hrep; simp [repMatches] at hrep
    | FLOAT =>
      rw [update_simulation_float t s 0 hdrift hacc hdt, e1,
        clampOpt_eq_self t.min_value t.max_value t._value.toRat hmi hma]
      rw [Tag.repOk, hdt] at hrep
      cases hv : t._value with
      | pyFloat q =>
        simp only [PyValue.toRat]
        rw [← hv]
      | pyBool b => rw [hv] at hrep; simp [repMatches] at hrep
      | pyInt n => rw [hv] at hrep; simp [repMatches] at hrep
      | pyStr a => rw [hv] at hrep; simp [repMatches] at hrep
    | BOOL => exact update_simulation_nonnumeric t s 0 (Or.inl hdt)
    | BYTE => exact update_simulation_nonnumeric t s 0 (Or.inr (Or.inl hdt))
    | STRING => exact update_simulation_nonnumeric t s 0 (Or.inr (Or.inr hdt))

/-- Claim C9, witness: a zero-duration tick on the in-bounds `Temperature`
tag changes nothing. -/
theorem advance_zero_noop_witness : temperature.update_simulation (1/1000) 0 = temperature :=
  advance_zero_noop temperature (1/1000) rfl rfl

/-! ### Claim C10 -/

/-- Drift over a step sequence on a read-only FLOAT tag bounded by
[0, 150]: the stored value stays a float in [0, 150] and moves away from
the reference point 75 by at most its initial distance plus
`drift_rate · ΣΔt`, for every admissible choice of the uniform samples. -/
lemma run_drift_float_bound (steps : List (ℚ × ℚ)) (t : Tag) (q : ℚ)
    (hdt : t.data_type = .FLOAT) (hacc : t.access = .READ_ONLY)
    (hden : t.drift_enabled = true) (hmin : t.min_value = some 0)
    (hmax : t.max_value = some 150)
    (hv : t._value = .pyFloat q) (h0 : 0 ≤ q) (h150 : q ≤ 150)
    (hs : ∀ p ∈ steps, |p.1| ≤ 1/1000 ∧ 0 ≤ p.2) :
    ∃ r : ℚ, (t.run_drift steps)._value = .pyFloat r ∧ 0 ≤ r ∧ r ≤ 150 ∧
      |r - 75| ≤ |q - 75| + (1/1000) * (steps.map Prod.snd).sum := by
  induction steps generalizing t q with
  | nil =>
    refine ⟨q, ?_, h0, h150, by simp⟩
    simpa [Tag.run_drift] using hv
  | cons p rest ih =>
    have hp := hs p (List.mem_cons_self p rest)
    have hrest : ∀ x ∈ rest, |x.1| ≤ 1/1000 ∧ 0 ≤ x.2 :=
      fun x hx => hs x (List.mem_cons_of_mem p hx)
    have hstep : t.update_simulation p.1 p.2 =
        { t with _value := .pyFloat (clampOpt (some 0) (some 150) (q + p.1 * p.2)) } := by
      rw [update_simulation_float t p.1 p.2 hden hacc hdt, hmin, hmax, hv]
      rfl
    obtain ⟨hq'0, hq'150⟩ := clampOpt_mem 0 150 (q + p.1 * p.2) (by norm_num)
    have hdist : |clampOpt (some 0) (some 150) (q + p.1 * p.2) - 75| ≤ |q + p.1 * p.2 - 75| :=
      clampOpt_dist 0 150 75 (q + p.1 * p.2) (by norm_num) (by norm_num)
    rcases ih ({ t with _value := .pyFloat (clampOpt (some 0) (some 150) (q + p.1 * p.2)) })
        (clampOpt (some 0) (some 150) (q + p.1 * p.2)) hdt hacc hden hmin hmax rfl
        hq'0 hq'150 hrest with ⟨r, hr, hr0, hr150, hrd⟩
    refine ⟨r, ?_, hr0, hr150, ?_⟩
    · rw [Tag.run_drift, hstep]
      exact hr
    · have habs : |q + p.1 * p.2 - 75| ≤ |q - 75| + |p.1 * p.2| := by
        have : q + p.1 * p.2 - 75 = (q - 75) + p.1 * p.2 := by ring
        rw [this]
        exact abs_add _ _
      have hsd : |p.1 * p.2| ≤ (1/1000) * p.2 := by
        rw [abs_mul, abs_of_nonneg hp.2]
        exact mul_le_mul_of_nonneg_right hp.1 hp.2
      have hsum : ((p :: rest).map Prod.snd).sum = p.2 + (rest.map Prod.snd).sum := by simp
      rw [hsum]
      have := hrd
      nlinarith [hdist, habs, hsd, this]

/-- Claim C10 (confirmed): for the read-only float `Temperature` tag
(initial 75.0, bounds [0, 150], drift rate 0.001/s), after any sequence of
`AdvanceSimulation` steps with nonnegative Δt summing to 1000 seconds and
every uniform sample within `[-drift_rate, drift_rate]`, the stored value
differs from 75 by at most 1000 × 0.001 = 1 and stays within [0, 150]. -/
theorem temperature_drift_bounded (steps : List (ℚ × ℚ))
    (hs : ∀ p ∈ steps, |p.1| ≤ temperature.drift_rate ∧ 0 ≤ p.2)
    (hsum : (steps.map Prod.snd).sum = 1000) :
    ∃ r : ℚ, (temperature.run_drift steps)._value = .pyFloat r ∧
      |r - 75| ≤ 1 ∧ 0 ≤ r ∧ r ≤ 150 := by
  have hs' : ∀ p ∈ steps, |p.1| ≤ 1/1000 ∧ 0 ≤ p.2 := hs
  rcases run_drift_float_bound steps temperature 75 rfl rfl rfl rfl rfl rfl
      (by norm_num) (by norm_num) hs' with ⟨r, h1, h2, h3, h4⟩
  refine ⟨r, h1, ?_, h2, h3⟩
  rw [hsum] at h4
  have : |(75 : ℚ) - 75| + (1/1000) * 1000 = 1 := by norm_num
  linarith [h4, this.le]

/-- Claim C10, witness: a single drift step of 1000 seconds at the maximal
sample keeps the value within 1 of 75 and inside the bounds. -/
theorem temperature_drift_bounded_witness :
    ∃ r : ℚ, (temperature.run_drift [(1/1000, 1000)])._value = .pyFloat r ∧
      |r - 75| ≤ 1 ∧ 0 ≤ r ∧ r ≤ 150 :=
  temperature_drift_bounded [(1/1000, 1000)]
    (by
      intro p hp
      rw [List.mem_singleton] at hp
      subst hp
      refine ⟨?_, by norm_num⟩
      show |(1/1000 : ℚ)| ≤ 1/1000
      rw [abs_of_nonneg (by norm_num : (0:ℚ) ≤ 1/1000)])
    (by norm_num)

end PLCSim
